import Mathlib

/-!
Verification of the extraction and pagination logic of `src/scraper.py`
(`ChronicleScraper`).  The Python functions are shallowly embedded as pure
Lean functions over explicit models of the DOM fragments they read:

* `extract_row_data_from_soup` (BeautifulSoup backend) over `SoupRow`,
  detail-row node lists (`DNode`),
* `extract_row_data` (Selenium fallback backend, lines 469-545) over `SelRow`,
* `get_total_pages`, `go_to_next_page`, `expand_row`,
* the `scrape_all` page loop.

Python string operations are modelled on `String` / `List Char` by
kernel-reducible functions: `strip()` as `strTrim`, `strip('"')` as
`stripQuotes`, `in` as `strContains`, `lower()` as `strLower`,
`startswith` / `endswith` as `strStarts` / `strEnds`, `split('\n')` as
`splitNl`, `' '.join` as `strJoinSpace`, `split(':', 1)[1]` as
`afterFirstColon`.
-/

namespace Scraper

/-- Drop leading whitespace characters. -/
def dropWs : List Char → List Char
  | [] => []
  | c :: rest => if c.isWhitespace then dropWs rest else c :: rest

/-- Python's `s.strip()`: remove leading and trailing whitespace. -/
def strTrim (s : String) : String :=
  String.mk ((dropWs (dropWs s.data).reverse).reverse)

/-- Python's `s.lower()` (over the ASCII letters the scraper compares). -/
def strLower (s : String) : String :=
  String.mk (s.data.map Char.toLower)

/-- Python's `s.startswith(p)`. -/
def strStarts (s p : String) : Bool :=
  p.data.isPrefixOf s.data

/-- Python's `s.endswith(p)`. -/
def strEnds (s p : String) : Bool :=
  p.data.reverse.isPrefixOf s.data.reverse

/-- Split on newline characters, keeping empty pieces, like
Python's `s.split('\n')`. -/
def splitNlAux : List Char → List Char → List String
  | [], acc => [String.mk acc.reverse]
  | '\n' :: rest, acc => String.mk acc.reverse :: splitNlAux rest []
  | c :: rest, acc => splitNlAux rest (c :: acc)

/-- Python's `s.split('\n')`. -/
def splitNl (s : String) : List String :=
  splitNlAux s.data []

/-- Characters of `' '.join(parts)`. -/
def joinSpaceChars : List String → List Char
  | [] => []
  | [s] => s.data
  | s :: rest => s.data ++ ' ' :: joinSpaceChars rest

/-- Python's `' '.join(parts)`. -/
def strJoinSpace (parts : List String) : String :=
  String.mk (joinSpaceChars parts)

/-- `charsContain needle hay` decides whether `needle` occurs as a contiguous
sublist of `hay`. -/
def charsContain (needle : List Char) : List Char → Bool
  | [] => needle.isEmpty
  | c :: rest => needle.isPrefixOf (c :: rest) || charsContain needle rest

/-- Python's substring test `needle in hay`. -/
def strContains (hay needle : String) : Bool :=
  charsContain needle.data hay.data

/-- Drop all leading `'"'` characters. -/
def dropQuotes : List Char → List Char
  | '"' :: rest => dropQuotes rest
  | l => l

/-- Python's `s.strip('"')`: remove all leading and trailing double quotes. -/
def stripQuotes (s : String) : String :=
  String.mk ((dropQuotes (dropQuotes s.data).reverse).reverse)

/-- Characters after the first `':'` (empty if there is no colon). -/
def charsAfterColon : List Char → List Char
  | [] => []
  | ':' :: rest => rest
  | _ :: rest => charsAfterColon rest

/-- Python's `s.split(':', 1)[1]`, used only under an `':' in s` guard. -/
def afterFirstColon (s : String) : String :=
  String.mk (charsAfterColon s.data)

/-- A child node of the `td.details` cell, as walked by the structured
extraction path of `extract_row_data_from_soup`: a `<br>` tag, a bare text
node (`NavigableString`), a `<b>` tag with its text, or any other element
with its rendered text (modelled as a single fragment). -/
inductive DNode
  | br
  | str (s : String)
  | bold (s : String)
  | elem (s : String)
  deriving DecidableEq

/-- `find('b', string=p)`: the first `<b>` node whose text satisfies `p`,
returned together with its following siblings. -/
def findBoldWith (p : String → Bool) : List DNode → Option (String × List DNode)
  | [] => none
  | DNode.bold s :: rest => if p s then some (s, rest) else findBoldWith p rest
  | _ :: rest => findBoldWith p rest

/-- The sibling walk after the `Details` marker (scraper.py lines 352-365):
skip `<br>`; collect stripped text nodes that are nonempty, do not start with
a quote and do not mention `status:`; stop at a `<b>` mentioning `status:`;
collect other elements' stripped text when nonempty and not mentioning
`status:`. Collected fragments are stripped of surrounding quotes. -/
def detailsParts : List DNode → List String
  | [] => []
  | DNode.br :: rest => detailsParts rest
  | DNode.str s :: rest =>
    let t := strTrim s
    if t ≠ "" && !strStarts t "\"" && !strContains (strLower t) "status:" then
      stripQuotes t :: detailsParts rest
    else
      detailsParts rest
  | DNode.bold s :: rest =>
    if strContains (strLower s) "status:" then
      []
    else
      let t := strTrim s
      if t ≠ "" && !strContains (strLower t) "status:" then
        stripQuotes t :: detailsParts rest
      else
        detailsParts rest
  | DNode.elem s :: rest =>
    let t := strTrim s
    if t ≠ "" && !strContains (strLower t) "status:" then
      stripQuotes t :: detailsParts rest
    else
      detailsParts rest

/-- Structured `details` extraction (scraper.py lines 349-367): find the
`<b>` containing `Details`, join the collected sibling fragments with single
spaces and strip. Empty when no such `<b>` exists. -/
def structuredDetails (nodes : List DNode) : String :=
  match findBoldWith (fun s => strContains s "Details") nodes with
  | none => ""
  | some (_, rest) => strTrim (strJoinSpace (detailsParts rest))

/-- First nonempty sibling text after the status marker (scraper.py lines
378-390): skip `<br>`, strip whitespace and quotes, take the first nonempty
result. -/
def statusSiblingText : List DNode → Option String
  | [] => none
  | DNode.br :: rest => statusSiblingText rest
  | DNode.str s :: rest =>
    let t := stripQuotes (strTrim s)
    if t ≠ "" then some t else statusSiblingText rest
  | DNode.bold s :: rest =>
    let t := stripQuotes (strTrim s)
    if t ≠ "" then some t else statusSiblingText rest
  | DNode.elem s :: rest =>
    let t := stripQuotes (strTrim s)
    if t ≠ "" then some t else statusSiblingText rest

/-- Structured `state_status` extraction (scraper.py lines 370-390): find the
`<b>` whose lowered text contains `status:`, take the inline value after the
first colon, then overwrite it with the first nonempty sibling text when one
exists. -/
def structuredStatus (nodes : List DNode) : String :=
  match findBoldWith (fun s => strContains (strLower s) "status:") nodes with
  | none => ""
  | some (s, rest) =>
    let inline := if strContains s ":" then strTrim (afterFirstColon s) else ""
    match statusSiblingText rest with
    | some t => t
    | none => inline

/-- The nonempty stripped text lines of the details cell, as produced by
`get_text(separator='\n', strip=True)` followed by split and strip
(scraper.py lines 394-395). -/
def renderedLines : List DNode → List String
  | [] => []
  | DNode.br :: rest => renderedLines rest
  | DNode.str s :: rest =>
    if strTrim s = "" then renderedLines rest else strTrim s :: renderedLines rest
  | DNode.bold s :: rest =>
    if strTrim s = "" then renderedLines rest else strTrim s :: renderedLines rest
  | DNode.elem s :: rest =>
    if strTrim s = "" then renderedLines rest else strTrim s :: renderedLines rest

/-- The fallback line classifier of the BeautifulSoup path (scraper.py lines
397-417): bucket lines into details parts and status parts, switching modes
on a line containing `Details` (when not already in details mode) or a line
containing `status:`. -/
def fallbackClassify : List String → Bool → Bool → List String × List String
  | [], _, _ => ([], [])
  | line :: rest, inDetails, inStatus =>
    if strContains line "Details" && !inDetails then
      fallbackClassify rest true false
    else if strContains (strLower line) "status:" then
      let pair := fallbackClassify rest false true
      if strContains line ":" then
        (pair.1, stripQuotes (strTrim (afterFirstColon line)) :: pair.2)
      else
        (pair.1, pair.2)
    else if inDetails && !inStatus then
      let pair := fallbackClassify rest inDetails inStatus
      (stripQuotes line :: pair.1, pair.2)
    else if inStatus then
      let pair := fallbackClassify rest inDetails inStatus
      (pair.1, stripQuotes line :: pair.2)
    else
      fallbackClassify rest inDetails inStatus

/-- The two-tier `details` / `state_status` extraction of
`extract_row_data_from_soup` (scraper.py lines 349-422): structured
extraction first; when either field is empty, run the fallback line parser
and use its buckets only for the fields that are still empty. -/
def extractDetailPair (nodes : List DNode) : String × String :=
  let details := structuredDetails nodes
  let status := structuredStatus nodes
  if details = "" || status = "" then
    let parts := fallbackClassify (renderedLines nodes) false false
    let details2 :=
      if details = "" ∧ parts.1 ≠ [] then strJoinSpace parts.1 else details
    let status2 :=
      if status = "" ∧ parts.2 ≠ [] then strJoinSpace parts.2 else status
    (details2, status2)
  else
    (details, status)

/-- The scraped record (the dictionary built at scraper.py lines 427-436). -/
structure Record where
  institution : String
  state : String
  impacts : String
  source : String
  source_links : List String
  details : String
  state_status : String
  row_id : String
  deriving DecidableEq

/-- A `<td>` cell of a main row as read by the BeautifulSoup backend:
its stripped text and the `href` values of its `<a href>` descendants in
document order. -/
structure SoupCell where
  text : String
  anchorHrefs : List String
  deriving DecidableEq

/-- A main table row as read by the BeautifulSoup backend: its `id`
attribute (`''` when absent) and its `<td>` cells in document order. -/
structure SoupRow where
  id : String
  cells : List SoupCell
  deriving DecidableEq

/-- The details row fragment: `find('td', class_='details')` either fails
(`none`) or yields the child nodes of the details cell. -/
structure DetailsRowSoup where
  detailsCell : Option (List DNode)
  deriving DecidableEq

/-- Default cell, never selected under the length guards. -/
def emptyCell : SoupCell := ⟨"", []⟩

/-- The `details` / `state_status` pair extracted from the optional details
row: empty strings when the details row or its `td.details` cell is absent,
otherwise the two-tier extraction on the cell's nodes. -/
def soupDetailPair : Option DetailsRowSoup → String × String
  | none => ("", "")
  | some dr =>
    match dr.detailsCell with
    | none => ("", "")
    | some nodes => extractDetailPair nodes

/-- Shallow embedding of `ChronicleScraper.extract_row_data_from_soup`
(scraper.py lines 300-440).  `bsAvailable` models the module flag
`BEAUTIFULSOUP_AVAILABLE` checked at entry. -/
def extract_row_data_from_soup (bsAvailable : Bool) (row : SoupRow)
    (detailsRow : Option DetailsRowSoup) : Option Record :=
  if !bsAvailable then none
  else if row.id = "" then none
  else if row.cells.length < 3 then none
  else
    let institution := if row.cells.length > 0 then (row.cells.getD 0 emptyCell).text else ""
    let state := if row.cells.length > 1 then (row.cells.getD 1 emptyCell).text else ""
    let impacts := if row.cells.length > 2 then (row.cells.getD 2 emptyCell).text else ""
    let source := if row.cells.length > 3 then (row.cells.getD 3 emptyCell).text else ""
    let links := if row.cells.length > 3 then (row.cells.getD 3 emptyCell).anchorHrefs else []
    let pair : String × String := soupDetailPair detailsRow
    some ⟨institution, state, impacts, source, links, pair.1, pair.2, row.id⟩

/-- A `<td>` cell of a main row as read by the Selenium backend: its
rendered text and, for each `<a>` descendant, the value returned by
`get_attribute('href')` (absent attribute modelled as `none`). -/
structure SelCell where
  text : String
  anchorHrefs : List (Option String)
  deriving DecidableEq

/-- A main table row as read by the Selenium backend: the value of
`get_attribute('id')`, its `<td>` cells, and the text of the matching
`td.details` cell of the `details_<id>` row when that row is found. -/
structure SelRow where
  id : Option String
  cells : List SelCell
  detailsText : Option String
  deriving DecidableEq

/-- Default cell for the Selenium backend, never selected under the length
guards. -/
def selEmptyCell : SelCell := ⟨"", []⟩

/-- Loop state of the Selenium line parser (scraper.py lines 497-520). -/
structure SelParseState where
  in_status : Bool
  details : String
  state_status : String
  details_lines : List String
  status_lines : List String
  deriving DecidableEq

/-- One iteration of the Selenium line parser (scraper.py lines 502-520):
skip blank lines and the bare `Details` header; a line mentioning `status:`
enters status mode and takes the text after the first colon; in status mode,
unquoted lines are bucketed and fully quoted lines overwrite the status; in
details mode, fully quoted lines overwrite the details and other lines are
bucketed. -/
def selLineStep (st : SelParseState) (rawLine : String) : SelParseState :=
  let line := strTrim rawLine
  if line = "" || line = "Details" then st
  else if strContains (strLower line) "status:" then
    { st with
        in_status := true,
        state_status :=
          if strContains line ":" then strTrim (afterFirstColon line) else st.state_status }
  else if st.in_status then
    if line ≠ "" && !strStarts line "\"" then
      { st with status_lines := st.status_lines ++ [line] }
    else if strStarts line "\"" && strEnds line "\"" then
      { st with state_status := stripQuotes line }
    else st
  else
    if strStarts line "\"" && strEnds line "\"" then
      { st with details := stripQuotes line }
    else if line ≠ "" then
      { st with details_lines := st.details_lines ++ [line] }
    else st

/-- The Selenium details parser (scraper.py lines 495-525): strip the cell
text, split on newlines, fold the line parser, then fill still-empty fields
from the buckets. -/
def selParseDetails (txt : String) : String × String :=
  let lines := splitNl (strTrim txt)
  let st := lines.foldl selLineStep ⟨false, "", "", [], []⟩
  let d :=
    if st.details = "" ∧ st.details_lines ≠ [] then
      strJoinSpace st.details_lines
    else st.details
  let s :=
    if st.state_status = "" ∧ st.status_lines ≠ [] then
      strJoinSpace st.status_lines
    else st.state_status
  (d, s)

/-- The `details` / `state_status` pair of the Selenium backend: empty
strings when the `details_<id>` row (or its `td.details` cell) is not
found, otherwise the line parser on the cell text. -/
def selDetailPair : Option String → String × String
  | none => ("", "")
  | some txt => selParseDetails txt

/-- Shallow embedding of the Selenium fallback path of
`ChronicleScraper.extract_row_data` (scraper.py lines 469-545): `None` on a
missing or empty `id` attribute or fewer than 3 cells; positional cell
extraction with `source_links` keeping only truthy `href` values; details
parsed from the `details_<id>` row when present. -/
def extract_row_data (row : SelRow) : Option Record :=
  match row.id with
  | none => none
  | some rid =>
    if rid = "" then none
    else if row.cells.length < 3 then none
    else
      let institution := if row.cells.length > 0 then strTrim (row.cells.getD 0 selEmptyCell).text else ""
      let state := if row.cells.length > 1 then strTrim (row.cells.getD 1 selEmptyCell).text else ""
      let impacts := if row.cells.length > 2 then strTrim (row.cells.getD 2 selEmptyCell).text else ""
      let source := if row.cells.length > 3 then strTrim (row.cells.getD 3 selEmptyCell).text else ""
      let links :=
        if row.cells.length > 3 then
          (row.cells.getD 3 selEmptyCell).anchorHrefs.filterMap (fun h =>
            match h with
            | some s => if s ≠ "" then some s else none
            | none => none)
        else []
      let pair : String × String := selDetailPair row.detailsText
      some ⟨institution, state, impacts, source, links, pair.1, pair.2, rid⟩

/-- Require at least one whitespace character, then skip all of them
(the regex `\s+`). -/
def afterWs : List Char → Option (List Char)
  | [] => none
  | c :: rest => if c.isWhitespace then some (dropWs rest) else none

/-- Accumulate further decimal digits (the tail of the regex `\d+`). -/
def digitsLoop : List Char → Nat → Nat
  | [], acc => acc
  | c :: rest, acc =>
    if c.isDigit then digitsLoop rest (acc * 10 + (c.toNat - 48)) else acc

/-- Require at least one decimal digit and read the maximal run (the regex
`(\d+)` followed by `int`). -/
def leadingNum : List Char → Option Nat
  | [] => none
  | c :: rest => if c.isDigit then some (digitsLoop rest (c.toNat - 48)) else none

/-- Try to match `of\s+(\d+)` at the start of the character list. -/
def matchOfAt : List Char → Option Nat
  | 'o' :: 'f' :: rest =>
    match afterWs rest with
    | some rest2 => leadingNum rest2
    | none => none
  | _ => none

/-- Leftmost match of `of\s+(\d+)`, like `re.search`. -/
def searchOfNum : List Char → Option Nat
  | [] => none
  | c :: rest =>
    match matchOfAt (c :: rest) with
    | some n => some n
    | none => searchOfNum rest

/-- `re.search(r'of\s+(\d+)', text)` as used by `get_total_pages`. -/
def searchOfN (s : String) : Option Nat :=
  searchOfNum s.data

/-- Shallow embedding of `ChronicleScraper.get_total_pages` (scraper.py
lines 547-570).  `paginationText` is the text of the pagination-summary
element (`none` when that element lookup fails), `pageControls` the number
of visible page-number controls (`none` when that lookup fails).  On a
regex match the page count is `total // 25` plus one when the division
leaves a remainder; otherwise a nonempty control list gives its length,
and everything else defaults to 1. -/
def get_total_pages (paginationText : Option String) (pageControls : Option Nat) : Nat :=
  match paginationText.bind searchOfN with
  | some total => total / 25 + (if total % 25 > 0 then 1 else 0)
  | none =>
    match pageControls with
    | some n => if n > 0 then n else 1
    | none => 1

/-- One gathered candidate for the next-page control: whether
`is_enabled()` holds, and whether the scroll-and-click dispatch on it runs
without throwing. -/
structure NextCandidate where
  enabled : Bool
  clickOk : Bool
  deriving DecidableEq

/-- Shallow embedding of the candidate loop of
`ChronicleScraper.go_to_next_page` (scraper.py lines 635-651): walk the
gathered candidates in order, skip the disabled ones, return success on the
first candidate whose click dispatch does not throw, and failure when the
list is exhausted. -/
def go_to_next_page : List NextCandidate → Bool
  | [] => false
  | c :: rest => if c.enabled && c.clickOk then true else go_to_next_page rest

/-- A toggle control found inside the row's first cell: whether it is
displayed and whether the JS click on it runs without throwing. -/
structure ToggleCand where
  displayed : Bool
  clickOk : Bool
  deriving DecidableEq

/-- A table row as interacted with by `expand_row`: its `class` attribute,
whether the scroll-into-view call succeeds, whether `td:first-child`
exists, the toggle candidates found in the first cell in selector order,
and whether the clicks of strategies 2 and 3 run without throwing. -/
structure RowHandle where
  classAttr : Option String
  scrollOk : Bool
  firstCellFound : Bool
  toggles : List ToggleCand
  cellClickOk : Bool
  rowClickOk : Bool
  deriving DecidableEq

/-- Shallow embedding of `ChronicleScraper.expand_row` (scraper.py lines
231-281).  A row already carrying the `opened` marker returns `true` at
once.  Otherwise the first displayed toggle in the first cell is clicked
(an exception there escapes to the outer handler and yields `false`);
failing that, the first cell is clicked, then the row itself, any
exception of strategy 2 falling through to strategy 3 and an exception of
strategy 3 yielding `false`. -/
def expand_row (r : RowHandle) : Bool :=
  if strContains (r.classAttr.getD "") "opened" then true
  else if !r.scrollOk then false
  else
    match (if r.firstCellFound then r.toggles.find? (fun t => t.displayed) else none) with
    | some t => t.clickOk
    | none =>
      if r.firstCellFound && r.cellClickOk then true
      else r.rowClickOk

/-- Whether a run of `expand_row` on `r` dispatches a click that does not
throw: the same control flow as `expand_row`, except that the
already-`opened` early return performs no click. -/
def expandClickTaken (r : RowHandle) : Bool :=
  if strContains (r.classAttr.getD "") "opened" then false
  else if !r.scrollOk then false
  else
    match (if r.firstCellFound then r.toggles.find? (fun t => t.displayed) else none) with
    | some t => t.clickOk
    | none =>
      if r.firstCellFound && r.cellClickOk then true
      else r.rowClickOk

/-- Whether the caller-supplied page cap stops the loop at the incremented
page counter (`max_pages is not None and page_num > max_pages`,
scraper.py line 814). -/
def capTriggered (maxPages : Option Nat) (p : Nat) : Bool :=
  match maxPages with
  | some m => p > m
  | none => false

/-- The page loop of `ChronicleScraper.scrape_all` (scraper.py lines
680-820), starting at page `p`, returning the number of the last page it
extracts.  Each iteration extracts page `p`; the loop ends when
`go_to_next_page` fails, when the incremented counter exceeds the
caller-supplied cap, or when it exceeds the hard cap 20.  Termination is by
the hard cap: the counter increases towards 21. -/
def pageLoopFrom (advance : Nat → Bool) (maxPages : Option Nat) (p : Nat) : Nat :=
  if advance p = false then p
  else if capTriggered maxPages (p + 1) then p
  else if h : p + 1 > 20 then p
  else pageLoopFrom advance maxPages (p + 1)
termination_by 21 - p
decreasing_by omega

/-- Number of pages `scrape_all` extracts: the page loop starts at page 1.
`advance p` tells whether `go_to_next_page` succeeds after page `p`. -/
def pagesProcessed (advance : Nat → Bool) (maxPages : Option Nat) : Nat :=
  pageLoopFrom advance maxPages 1

/-- The page count of a `scrape_all` run: `total_pages` from
`get_total_pages` feeds only the log line at scraper.py line 676; the loop
itself never consults it. -/
def scrape_all_pages (totalPages : Nat) (advance : Nat → Bool)
    (maxPages : Option Nat) : Nat :=
  pagesProcessed advance maxPages

/-! ## Shape lemmas -/

/-- On a row passing both guards, the BeautifulSoup backend returns the
explicit record built from the positional cells and the detail pair. -/
theorem extract_soup_eq (row : SoupRow) (dr : Option DetailsRowSoup)
    (hid : row.id ≠ "") (h3 : ¬ row.cells.length < 3) :
    extract_row_data_from_soup true row dr =
      some ⟨if row.cells.length > 0 then (row.cells.getD 0 emptyCell).text else "",
            if row.cells.length > 1 then (row.cells.getD 1 emptyCell).text else "",
            if row.cells.length > 2 then (row.cells.getD 2 emptyCell).text else "",
            if row.cells.length > 3 then (row.cells.getD 3 emptyCell).text else "",
            if row.cells.length > 3 then (row.cells.getD 3 emptyCell).anchorHrefs else [],
            (soupDetailPair dr).1, (soupDetailPair dr).2, row.id⟩ := by
  unfold extract_row_data_from_soup
  rw [if_neg (by simp), if_neg hid, if_neg h3]

/-- On a row passing both guards, the Selenium backend returns the explicit
record built from the positional cells and the detail pair. -/
theorem extract_sel_eq (srow : SelRow) (rid : String)
    (hsid : srow.id = some rid) (hrid : rid ≠ "") (h3 : ¬ srow.cells.length < 3) :
    extract_row_data srow =
      some ⟨if srow.cells.length > 0 then strTrim (srow.cells.getD 0 selEmptyCell).text else "",
            if srow.cells.length > 1 then strTrim (srow.cells.getD 1 selEmptyCell).text else "",
            if srow.cells.length > 2 then strTrim (srow.cells.getD 2 selEmptyCell).text else "",
            if srow.cells.length > 3 then strTrim (srow.cells.getD 3 selEmptyCell).text else "",
            if srow.cells.length > 3 then
              (srow.cells.getD 3 selEmptyCell).anchorHrefs.filterMap (fun h =>
                match h with
                | some s => if s ≠ "" then some s else none
                | none => none)
            else [],
            (selDetailPair srow.detailsText).1, (selDetailPair srow.detailsText).2, rid⟩ := by
  unfold extract_row_data
  rw [hsid]
  dsimp only
  rw [if_neg hrid, if_neg h3]

/-! ## Claims -/

/-- C1: for every main table row with a non-empty identifier and at least 3
data cells, `extract_row_data_from_soup` (with BeautifulSoup available)
produces exactly one `Record`, whose `row_id` equals the row's identifier. -/
theorem qualifying_row_yields_record (row : SoupRow) (dr : Option DetailsRowSoup)
    (hid : row.id ≠ "") (hcells : 3 ≤ row.cells.length) :
    ∃ rec : Record, extract_row_data_from_soup true row dr = some rec ∧
      rec.row_id = row.id :=
  ⟨_, extract_soup_eq row dr hid (by omega), rfl⟩

/-- Witness for C1 at a concrete three-cell row. -/
theorem qualifying_row_yields_record_witness :
    (⟨"228", [⟨"MIT", []⟩, ⟨"MA", []⟩, ⟨"Closed office", []⟩]⟩ : SoupRow).id ≠ "" ∧
    3 ≤ (⟨"228", [⟨"MIT", []⟩, ⟨"MA", []⟩, ⟨"Closed office", []⟩]⟩ : SoupRow).cells.length ∧
    ∃ rec : Record,
      extract_row_data_from_soup true
        ⟨"228", [⟨"MIT", []⟩, ⟨"MA", []⟩, ⟨"Closed office", []⟩]⟩ none = some rec ∧
      rec.row_id = (⟨"228", [⟨"MIT", []⟩, ⟨"MA", []⟩, ⟨"Closed office", []⟩]⟩ : SoupRow).id :=
  ⟨by decide, by decide,
    qualifying_row_yields_record
      ⟨"228", [⟨"MIT", []⟩, ⟨"MA", []⟩, ⟨"Closed office", []⟩]⟩ none (by decide) (by decide)⟩

/-- C2: a row with fewer than 3 data cells or an empty identifier yields no
record from either backend: both return `none` rather than raising. -/
theorem insufficient_row_yields_none (bs : Bool) (row : SoupRow)
    (dr : Option DetailsRowSoup) (srow : SelRow) :
    ((row.cells.length < 3 ∨ row.id = "") →
      extract_row_data_from_soup bs row dr = none) ∧
    ((srow.cells.length < 3 ∨ srow.id = none ∨ srow.id = some "") →
      extract_row_data srow = none) := by
  constructor
  · intro h
    unfold extract_row_data_from_soup
    cases bs with
    | false => simp
    | true =>
      rcases h with h | h
      · by_cases hid : row.id = "" <;> simp [hid, h]
      · simp [h]
  · intro h
    unfold extract_row_data
    rcases h with h | h | h
    · rcases hsid : srow.id with _ | rid
      · simp
      · by_cases hrid : rid = "" <;> simp [hrid, h]
    · simp [h]
    · simp [h]

/-- Witness for C2: a two-cell row through the BeautifulSoup backend and a
two-cell row through the Selenium backend, both rejected. -/
theorem insufficient_row_yields_none_witness :
    (((⟨"7", [⟨"a", []⟩, ⟨"b", []⟩]⟩ : SoupRow).cells.length < 3 ∨
        (⟨"7", [⟨"a", []⟩, ⟨"b", []⟩]⟩ : SoupRow).id = "") ∧
      extract_row_data_from_soup true ⟨"7", [⟨"a", []⟩, ⟨"b", []⟩]⟩ none = none) ∧
    (((⟨some "7", [⟨"a", []⟩, ⟨"b", []⟩], none⟩ : SelRow).cells.length < 3 ∨
        (⟨some "7", [⟨"a", []⟩, ⟨"b", []⟩], none⟩ : SelRow).id = none ∨
        (⟨some "7", [⟨"a", []⟩, ⟨"b", []⟩], none⟩ : SelRow).id = some "") ∧
      extract_row_data ⟨some "7", [⟨"a", []⟩, ⟨"b", []⟩], none⟩ = none) :=
  ⟨⟨by decide,
    (insufficient_row_yields_none true ⟨"7", [⟨"a", []⟩, ⟨"b", []⟩]⟩ none
      ⟨some "7", [⟨"a", []⟩, ⟨"b", []⟩], none⟩).1 (by decide)⟩,
   ⟨by decide,
    (insufficient_row_yields_none true ⟨"7", [⟨"a", []⟩, ⟨"b", []⟩]⟩ none
      ⟨some "7", [⟨"a", []⟩, ⟨"b", []⟩], none⟩).2 (by decide)⟩⟩

/-- C4: a qualifying row with no associated detail-row fragment still yields
a record, with empty `details` and `state_status`. -/
theorem missing_detail_block_still_record (row : SoupRow)
    (hid : row.id ≠ "") (hcells : 3 ≤ row.cells.length) :
    ∃ rec : Record, extract_row_data_from_soup true row none = some rec ∧
      rec.details = "" ∧ rec.state_status = "" :=
  ⟨_, extract_soup_eq row none hid (by omega), rfl, rfl⟩

/-- Witness for C4 at a concrete three-cell row without a details row. -/
theorem missing_detail_block_still_record_witness :
    (⟨"42", [⟨"Yale", []⟩, ⟨"CT", []⟩, ⟨"Renamed office", []⟩]⟩ : SoupRow).id ≠ "" ∧
    3 ≤ (⟨"42", [⟨"Yale", []⟩, ⟨"CT", []⟩, ⟨"Renamed office", []⟩]⟩ : SoupRow).cells.length ∧
    ∃ rec : Record,
      extract_row_data_from_soup true
        ⟨"42", [⟨"Yale", []⟩, ⟨"CT", []⟩, ⟨"Renamed office", []⟩]⟩ none = some rec ∧
      rec.details = "" ∧ rec.state_status = "" :=
  ⟨by decide, by decide,
    missing_detail_block_still_record
      ⟨"42", [⟨"Yale", []⟩, ⟨"CT", []⟩, ⟨"Renamed office", []⟩]⟩ (by decide) (by decide)⟩

/-- C3: the fallback line parser runs only when a structured field is empty
and assigns only to fields that are still empty: a non-empty structured
`details` (respectively `state_status`) is never overwritten, and on an
already-complete structured result the merge changes nothing. -/
theorem detail_merge_no_overwrite (nodes : List DNode) :
    ((structuredDetails nodes ≠ "" →
        (extractDetailPair nodes).1 = structuredDetails nodes) ∧
     (structuredStatus nodes ≠ "" →
        (extractDetailPair nodes).2 = structuredStatus nodes)) ∧
    (structuredDetails nodes ≠ "" → structuredStatus nodes ≠ "" →
      extractDetailPair nodes = (structuredDetails nodes, structuredStatus nodes)) := by
  refine ⟨⟨?_, ?_⟩, ?_⟩
  · intro hd
    unfold extractDetailPair
    by_cases hs : structuredStatus nodes = "" <;> simp [hd, hs]
  · intro hs
    unfold extractDetailPair
    by_cases hd : structuredDetails nodes = "" <;> simp [hd, hs]
  · intro hd hs
    unfold extractDetailPair
    simp [hd, hs]

/-- Witness for C3 at a concrete details cell where both structured fields
are non-empty. -/
theorem detail_merge_no_overwrite_witness :
    structuredDetails
      [DNode.bold "Details", DNode.str "Hello", DNode.bold "State status:",
        DNode.str "Active"] ≠ "" ∧
    (extractDetailPair
      [DNode.bold "Details", DNode.str "Hello", DNode.bold "State status:",
        DNode.str "Active"]).1 =
      structuredDetails
        [DNode.bold "Details", DNode.str "Hello", DNode.bold "State status:",
          DNode.str "Active"] :=
  ⟨by decide,
    (detail_merge_no_overwrite
      [DNode.bold "Details", DNode.str "Hello", DNode.bold "State status:",
        DNode.str "Active"]).1.1 (by decide)⟩

/-- C9: for every extracted record whose row has a source cell (index 3),
`source_links` is exactly that cell's list of anchor `href` values, in
document order, duplicates preserved. -/
theorem source_links_document_order (row : SoupRow) (dr : Option DetailsRowSoup)
    (cell : SoupCell) (hid : row.id ≠ "") (hcell : row.cells.get? 3 = some cell) :
    ∃ rec : Record, extract_row_data_from_soup true row dr = some rec ∧
      rec.source_links = cell.anchorHrefs := by
  have hlen : 3 < row.cells.length := by
    cases Nat.lt_or_ge 3 row.cells.length with
    | inl h => exact h
    | inr h =>
      rw [List.get?_eq_none.mpr h] at hcell
      cases hcell
  have hgetD : row.cells.getD 3 emptyCell = cell := by
    unfold List.getD
    rw [hcell]
    rfl
  refine ⟨_, extract_soup_eq row dr hid (by omega), ?_⟩
  show (if row.cells.length > 3 then (row.cells.getD 3 emptyCell).anchorHrefs else []) =
    cell.anchorHrefs
  rw [if_pos hlen, hgetD]

/-- Witness for C9 at a row whose source cell holds duplicate hrefs. -/
theorem source_links_document_order_witness :
    (⟨"9", [⟨"a", []⟩, ⟨"b", []⟩, ⟨"c", []⟩, ⟨"src", ["u", "u", "v"]⟩]⟩ : SoupRow).id ≠ "" ∧
    (⟨"9", [⟨"a", []⟩, ⟨"b", []⟩, ⟨"c", []⟩, ⟨"src", ["u", "u", "v"]⟩]⟩ : SoupRow).cells.get? 3 =
      some ⟨"src", ["u", "u", "v"]⟩ ∧
    ∃ rec : Record,
      extract_row_data_from_soup true
        ⟨"9", [⟨"a", []⟩, ⟨"b", []⟩, ⟨"c", []⟩, ⟨"src", ["u", "u", "v"]⟩]⟩ none = some rec ∧
      rec.source_links = (⟨"src", ["u", "u", "v"]⟩ : SoupCell).anchorHrefs :=
  ⟨by decide, by decide,
    source_links_document_order
      ⟨"9", [⟨"a", []⟩, ⟨"b", []⟩, ⟨"c", []⟩, ⟨"src", ["u", "u", "v"]⟩]⟩ none
      ⟨"src", ["u", "u", "v"]⟩ (by decide) (by decide)⟩

/-- C10: a row with a non-empty identifier and exactly 3 cells is extracted
by both backends, the fourth cell being guarded by the length check:
`source` is the empty string and `source_links` the empty list. -/
theorem three_cell_row_empty_source (row : SoupRow) (dr : Option DetailsRowSoup)
    (srow : SelRow) (rid : String)
    (hid : row.id ≠ "") (h3 : row.cells.length = 3)
    (hsid : srow.id = some rid) (hrid : rid ≠ "") (hs3 : srow.cells.length = 3) :
    (∃ rec : Record, extract_row_data_from_soup true row dr = some rec ∧
      rec.source = "" ∧ rec.source_links = []) ∧
    (∃ rec : Record, extract_row_data srow = some rec ∧
      rec.source = "" ∧ rec.source_links = []) := by
  constructor
  · have hgt : ¬ row.cells.length > 3 := by omega
    refine ⟨_, extract_soup_eq row dr hid (by omega), ?_, ?_⟩
    · show (if row.cells.length > 3 then (row.cells.getD 3 emptyCell).text else "") = ""
      rw [if_neg hgt]
    · show (if row.cells.length > 3 then (row.cells.getD 3 emptyCell).anchorHrefs else []) =
        ([] : List String)
      rw [if_neg hgt]
  · have hgt : ¬ srow.cells.length > 3 := by omega
    refine ⟨_, extract_sel_eq srow rid hsid hrid (by omega), ?_, ?_⟩
    · show (if srow.cells.length > 3 then strTrim (srow.cells.getD 3 selEmptyCell).text else "") = ""
      rw [if_neg hgt]
    · show (if srow.cells.length > 3 then
          (srow.cells.getD 3 selEmptyCell).anchorHrefs.filterMap (fun h =>
            match h with
            | some s => if s ≠ "" then some s else none
            | none => none)
        else []) = ([] : List String)
      rw [if_neg hgt]

/-- Witness for C10 at concrete three-cell rows for both backends. -/
theorem three_cell_row_empty_source_witness :
    (⟨"5", [⟨"a", []⟩, ⟨"b", []⟩, ⟨"c", []⟩]⟩ : SoupRow).id ≠ "" ∧
    (⟨"5", [⟨"a", []⟩, ⟨"b", []⟩, ⟨"c", []⟩]⟩ : SoupRow).cells.length = 3 ∧
    (∃ rec : Record,
      extract_row_data_from_soup true ⟨"5", [⟨"a", []⟩, ⟨"b", []⟩, ⟨"c", []⟩]⟩ none = some rec ∧
      rec.source = "" ∧ rec.source_links = []) ∧
    (∃ rec : Record,
      extract_row_data ⟨some "5", [⟨"a", []⟩, ⟨"b", []⟩, ⟨"c", []⟩], none⟩ = some rec ∧
      rec.source = "" ∧ rec.source_links = []) := by
  have h := three_cell_row_empty_source ⟨"5", [⟨"a", []⟩, ⟨"b", []⟩, ⟨"c", []⟩]⟩ none
    ⟨some "5", [⟨"a", []⟩, ⟨"b", []⟩, ⟨"c", []⟩], none⟩ "5"
    (by decide) (by decide) (by decide) (by decide) (by decide)
  exact ⟨by decide, by decide, h.1, h.2⟩

/-- The page loop never moves past the hard cap of 20 pages. -/
theorem pageLoopFrom_le_twenty (advance : Nat → Bool) (mp : Option Nat) :
    ∀ n p, 21 - p ≤ n → p ≤ 20 → pageLoopFrom advance mp p ≤ 20 := by
  intro n
  induction n with
  | zero =>
    intro p h1 h2
    omega
  | succ n ih =>
    intro p h1 h2
    rw [pageLoopFrom]
    split
    · exact h2
    split
    · exact h2
    split
    · exact h2
    next h4 =>
      exact ih (p + 1) (by omega) (by omega)

/-- The page loop never moves past the caller-supplied cap when it starts
at or below it. -/
theorem pageLoopFrom_le_cap (advance : Nat → Bool) (m : Nat) :
    ∀ n p, 21 - p ≤ n → p ≤ m → pageLoopFrom advance (some m) p ≤ m := by
  intro n
  induction n with
  | zero =>
    intro p h1 h2
    rw [pageLoopFrom]
    split
    · exact h2
    split
    · exact h2
    split
    · exact h2
    next h4 =>
      omega
  | succ n ih =>
    intro p h1 h2
    rw [pageLoopFrom]
    split
    · exact h2
    split
    · exact h2
    next h3 =>
      split
      · exact h2
      next h4 =>
        have hcap : ¬ (p + 1 > m) := by
          intro hc
          exact h3 (by simp [capTriggered, hc])
        exact ih (p + 1) (by omega) (by omega)

/-- When advancing from the first page already fails, the loop processes
exactly that page. -/
theorem pagesProcessed_of_first_fail (advance : Nat → Bool) (mp : Option Nat)
    (h : advance 1 = false) : pagesProcessed advance mp = 1 := by
  rw [pagesProcessed, pageLoopFrom]
  simp [h]

/-- C5 (amended): the `scrape_all` page loop terminates within its caps: at
most `max_pages` pages when a positive caller-supplied cap is given, never
more than 20 pages even when page advancement always reports success, and
with `max_pages = 1` exactly one page regardless of the detected total page
count.  (With `max_pages = 0` the first page is still processed, see the
counterexample.) -/
theorem scrape_all_page_bounds (advance : Nat → Bool) :
    (∀ m : Nat, 1 ≤ m → pagesProcessed advance (some m) ≤ m) ∧
    (∀ mp : Option Nat, pagesProcessed advance mp ≤ 20) ∧
    (∀ totalPages : Nat, scrape_all_pages totalPages advance (some 1) = 1) := by
  refine ⟨?_, ?_, ?_⟩
  · intro m hm
    exact pageLoopFrom_le_cap advance m 20 1 (by omega) hm
  · intro mp
    exact pageLoopFrom_le_twenty advance mp 20 1 (by omega) (by omega)
  · intro t
    show pageLoopFrom advance (some 1) 1 = 1
    rw [pageLoopFrom]
    cases h : advance 1 <;> simp [h, capTriggered]

/-- Counterexample to C5 as stated: with the caller-supplied cap
`max_pages = 0` the loop still processes one page, exceeding the cap. -/
theorem scrape_all_cap_zero_counterexample :
    pagesProcessed (fun _ => true) (some 0) = 1 ∧
    ¬ pagesProcessed (fun _ => true) (some 0) ≤ 0 := by
  have h : pagesProcessed (fun _ => true) (some 0) = 1 := by
    rw [pagesProcessed, pageLoopFrom]
    simp [capTriggered]
  exact ⟨h, by omega⟩

/-- Witness for C5 with cap 5 and advancement always succeeding. -/
theorem scrape_all_page_bounds_witness :
    1 ≤ 5 ∧ pagesProcessed (fun _ => true) (some 5) ≤ 5 :=
  ⟨by omega, (scrape_all_page_bounds (fun _ => true)).1 5 (by omega)⟩

/-- C6: whenever `get_total_pages` finds the pattern `of <N>` in the
pagination-summary text, it returns `N // 25`, plus 1 when `N % 25 > 0`; in
particular `Showing 1–25 of 300` yields 12 and `of 301` yields 13. -/
theorem total_pages_of_pattern :
    (∀ (t : String) (pb : Option Nat) (n : Nat), searchOfN t = some n →
      get_total_pages (some t) pb = n / 25 + (if n % 25 > 0 then 1 else 0)) ∧
    (∀ pb : Option Nat, get_total_pages (some "Showing 1–25 of 300") pb = 12) ∧
    (∀ pb : Option Nat, get_total_pages (some "of 301") pb = 13) := by
  have base : ∀ (t : String) (pb : Option Nat) (n : Nat), searchOfN t = some n →
      get_total_pages (some t) pb = n / 25 + (if n % 25 > 0 then 1 else 0) := by
    intro t pb n h
    unfold get_total_pages
    rw [show (some t).bind searchOfN = some n from h]
  refine ⟨base, ?_, ?_⟩
  · intro pb
    rw [base _ pb 300 (by decide)]
    decide
  · intro pb
    rw [base _ pb 301 (by decide)]
    decide

/-- Witness for C6 at the summary text `Showing 1–25 of 300`. -/
theorem total_pages_of_pattern_witness :
    searchOfN "Showing 1–25 of 300" = some 300 ∧
    get_total_pages (some "Showing 1–25 of 300") none =
      300 / 25 + (if 300 % 25 > 0 then 1 else 0) :=
  ⟨by decide, total_pages_of_pattern.1 "Showing 1–25 of 300" none 300 (by decide)⟩

/-- C7: `go_to_next_page` skips every disabled candidate, fails exactly when
no candidate is both enabled and clickable without throwing, and on that
failure the orchestrator's page loop stops normally after the current
page. -/
theorem next_page_failure_spec :
    (∀ (c : NextCandidate) (cs : List NextCandidate), c.enabled = false →
      go_to_next_page (c :: cs) = go_to_next_page cs) ∧
    (∀ cs : List NextCandidate, go_to_next_page cs = false ↔
      ∀ c ∈ cs, ¬ (c.enabled = true ∧ c.clickOk = true)) ∧
    (∀ cs : List NextCandidate, go_to_next_page cs = false →
      ∀ (totalPages : Nat) (mp : Option Nat),
        scrape_all_pages totalPages (fun _ => go_to_next_page cs) mp = 1) := by
  have iff_part : ∀ cs : List NextCandidate, go_to_next_page cs = false ↔
      ∀ c ∈ cs, ¬ (c.enabled = true ∧ c.clickOk = true) := by
    intro cs
    induction cs with
    | nil => simp [go_to_next_page]
    | cons c rest ih =>
      by_cases h : (c.enabled && c.clickOk) = true
      · simp only [go_to_next_page, if_pos h]
        rcases (Bool.and_eq_true _ _).mp h with ⟨h1, h2⟩
        constructor
        · intro ht
          cases ht
        · intro hall
          exact absurd ⟨h1, h2⟩ (hall c (List.mem_cons_self c rest))
      · simp only [go_to_next_page, if_neg h, ih]
        constructor
        · intro hall c' hc'
          rcases List.mem_cons.mp hc' with rfl | hm
          · rintro ⟨h1, h2⟩
            exact h (by rw [h1, h2]; rfl)
          · exact hall c' hm
        · intro hall c' hc'
          exact hall c' (List.mem_cons_of_mem _ hc')
  refine ⟨?_, iff_part, ?_⟩
  · intro c cs h
    simp [go_to_next_page, h]
  · intro cs h t mp
    exact pagesProcessed_of_first_fail _ mp h

/-- Witness for C7: a disabled candidate is skipped. -/
theorem next_page_failure_spec_witness :
    (⟨false, true⟩ : NextCandidate).enabled = false ∧
    go_to_next_page [(⟨false, true⟩ : NextCandidate)] = go_to_next_page [] :=
  ⟨rfl, next_page_failure_spec.1 ⟨false, true⟩ [] rfl⟩

/-- Counterexample to C8 as stated: a row already carrying the `opened`
marker makes `expand_row` return `true` although no click action is
performed, so the result is not `true` exactly when a click was taken. -/
theorem expand_row_opened_counterexample :
    expand_row ⟨some "opened", true, true, [], true, true⟩ = true ∧
    expandClickTaken ⟨some "opened", true, true, [], true, true⟩ = false :=
  ⟨by decide, by decide⟩

/-- C8 (amended): a row whose class attribute carries the `opened` marker is
skipped, returning `true` without dispatching any click; otherwise the
result is `true` exactly when one of the click strategies (toggle control,
first cell, row itself) dispatched a click that did not throw, and `false`
when no click succeeds. -/
theorem expand_row_spec (r : RowHandle) :
    (strContains (r.classAttr.getD "") "opened" = true →
      expand_row r = true ∧ expandClickTaken r = false) ∧
    expand_row r = (strContains (r.classAttr.getD "") "opened" || expandClickTaken r) := by
  constructor
  · intro h
    constructor
    · simp [expand_row, h]
    · simp [expandClickTaken, h]
  · by_cases h : strContains (r.classAttr.getD "") "opened" = true
    · simp [expand_row, expandClickTaken, h]
    · simp only [Bool.not_eq_true] at h
      simp [expand_row, expandClickTaken, h]

/-- Witness for C8 at a concrete already-opened row. -/
theorem expand_row_spec_witness :
    strContains ((⟨some "opened", true, true, [], true, true⟩ : RowHandle).classAttr.getD "")
      "opened" = true ∧
    expand_row ⟨some "opened", true, true, [], true, true⟩ = true :=
  ⟨by decide,
    ((expand_row_spec ⟨some "opened", true, true, [], true, true⟩).1 (by decide)).1⟩

end Scraper
